import Mathlib

/-!
Verification of the ranger-audit restore pipeline (`restore.py`).

The program is shallowly embedded over `List Char` (Python `str`) and a small
file-system model.  External collaborators (the cloud SDK listing/download
calls, `json.loads`, the Solr endpoint, Kerberos login and `argparse`) are
modelled as parameters of the embedded functions, exactly at the interface
points where the source calls them.
-/

namespace RangerRestore

/-- Numeric value of an ASCII digit character (`c - '0'` in Python terms). -/
def dv (c : Char) : Nat := c.toNat - 48

/-- An ASCII digit `0`–`9`, the alphabet of the bracketed character classes
(`[1-9]`, `0[1-9]`, …) in `strptime`'s compiled patterns and of the spec's
`YYYYMMDD` labels. -/
def isDig (c : Char) : Bool := 48 ≤ c.toNat && c.toNat ≤ 57

/-- Python `s.split(sep)` for a one-character separator: always returns
`n+1` parts for `n` separators, `[""]` on the empty string. -/
def pySplit (sep : Char) : List Char → List (List Char)
  | [] => [[]]
  | c :: cs =>
    match pySplit sep cs with
    | [] => [[]]
    | p :: ps => if c = sep then [] :: p :: ps else (c :: p) :: ps

/-- Python `s.rstrip(ch)`: drop every trailing occurrence of `ch`. -/
def pyRstrip (ch : Char) (s : List Char) : List Char :=
  ((s.reverse).dropWhile (fun c => c = ch)).reverse

/-- Whether `pat` is a prefix of `s` (helper for substring containment). -/
def pyStartsWith : List Char → List Char → Bool
  | _, [] => true
  | [], _ :: _ => false
  | c :: cs, p :: ps => c = p && pyStartsWith cs ps

/-- Python `pat in s`: literal substring containment. -/
def pyContains (s pat : List Char) : Bool :=
  match s with
  | [] => pyStartsWith [] pat
  | _ :: cs => pyStartsWith s pat || pyContains cs pat

/-- Python `c.lower()` on one ASCII character. -/
def pyLowerChar (c : Char) : Char :=
  if 65 ≤ c.toNat && c.toNat ≤ 90 then Char.ofNat (c.toNat + 32) else c

/-- Python `s.lower()` (ASCII fragment, all inputs of interest are ASCII). -/
def pyLower (s : List Char) : List Char := s.map pyLowerChar

/-- Python `l[-2]` on the segment list.  `List.getD` stands in for the
indexing; the marker check made before every use guarantees at least two
segments (see the safety theorem for C10), so the default is never reached. -/
def pyIdxNeg2 (l : List (List Char)) : List Char := l.getD (l.length - 2) []

/-- Python `l[-1]` on the segment list (same remark as `pyIdxNeg2`). -/
def pyIdxNeg1 (l : List (List Char)) : List Char := l.getD (l.length - 1) []

/-!
## DateWindow: `is_date_str` / `is_later_date`

`is_date_str` calls `datetime.strptime(s, "%Y%m%d")`.  CPython (3.11,
Unicode database 14.0.0) compiles the format to the regex
`(?P<Y>\d\d\d\d)(?P<m>1[0-2]|0[1-9]|[1-9])(?P<d>3[0-1]|[1-2]\d|0[1-9]|[1-9]| [1-9])`,
matches it with backtracking from the start of the string, raises if
unconverted data remains, converts each group with `int()`, then validates
the calendar date.  Note the day pattern's final space-padded alternative
`' [1-9]'`, and that `\d` matches any Unicode decimal digit (category Nd)
while the bracketed classes are literal ASCII ranges; `int()` converts
Unicode digits by their per-character decimal value and ignores the leading
space of a space-padded day.  The matchers below embed exactly those
alternations in their priority order.
-/

/-- Start code points of the 66 Unicode decimal-digit blocks (category Nd,
database version 14.0.0 as shipped with CPython 3.11); each block is ten
consecutive code points carrying the digit values 0–9. -/
def ndStarts : List Nat :=
  [48, 1632, 1776, 1984, 2406, 2534, 2662, 2790, 2918, 3046, 3174, 3302,
   3430, 3558, 3664, 3792, 3872, 4160, 4240, 6112, 6160, 6470, 6608, 6784,
   6800, 6992, 7088, 7232, 7248, 42528, 43216, 43264, 43472, 43504, 43600,
   44016, 65296, 66720, 68912, 69734, 69872, 69942, 70096, 70384, 70736,
   70864, 71248, 71360, 71472, 71904, 72016, 72784, 73040, 73120, 92768,
   92864, 93008, 120782, 120792, 120802, 120812, 120822, 123200, 123632,
   125264, 130032]

/-- The regex class `\d` of the compiled pattern: any Unicode decimal
digit. -/
def isNd (c : Char) : Bool :=
  ndStarts.any (fun s => s ≤ c.toNat && c.toNat < s + 10)

/-- Decimal value of a Unicode digit character, as `int()` computes it. -/
def ndVal (c : Char) : Nat :=
  match ndStarts.find? (fun s => s ≤ c.toNat && c.toNat < s + 10) with
  | some s => c.toNat - s
  | none => 0

/-- The day pattern `3[0-1]|[1-2]\d|0[1-9]|[1-9]| [1-9]`, first alternative
wins; returns the day value and the unconsumed input.  The second
alternative's `\d` is Unicode-aware; the last alternative is CPython's
space-padded day, whose `int(" d")` value ignores the space. -/
def dayCand : List Char → Option (Nat × List Char)
  | c1 :: c2 :: rest =>
    if c1 = '3' && (c2 = '0' || c2 = '1') then some (30 + dv c2, rest)
    else if (c1 = '1' || c1 = '2') && isNd c2 then some (10 * dv c1 + ndVal c2, rest)
    else if c1 = '0' && (isDig c2 && !(c2 = '0')) then some (dv c2, rest)
    else if isDig c1 && !(c1 = '0') then some (dv c1, c2 :: rest)
    else if c1 = ' ' && (isDig c2 && !(c2 = '0')) then some (dv c2, rest)
    else none
  | [c1] => if isDig c1 && !(c1 = '0') then some (dv c1, []) else none
  | [] => none

/-- Attach a day match to an already-matched month value. -/
def tryAlt (m : Nat) (rest : List Char) : Option (Nat × Nat × List Char) :=
  match dayCand rest with
  | some (d, r) => some (m, d, r)
  | none => none

/-- The month pattern `1[0-2]|0[1-9]|[1-9]` followed by the day pattern,
with regex backtracking: a month alternative is abandoned only when no day
alternative matches the remainder. -/
def mdCand : List Char → Option (Nat × Nat × List Char)
  | c1 :: c2 :: rest =>
    match (if c1 = '1' && (c2 = '0' || c2 = '1' || c2 = '2') then
             tryAlt (10 + dv c2) rest else none) with
    | some r => some r
    | none =>
      match (if c1 = '0' && (isDig c2 && !(c2 = '0')) then
               tryAlt (dv c2) rest else none) with
      | some r => some r
      | none =>
        if isDig c1 && !(c1 = '0') then tryAlt (dv c1) (c2 :: rest) else none
  | [c1] => if isDig c1 && !(c1 = '0') then tryAlt (dv c1) [] else none
  | [] => none

/-- The year pattern `\d\d\d\d`: exactly four Unicode decimal digits,
converted by `int()` per character. -/
def yearCand : List Char → Option (Nat × List Char)
  | c1 :: c2 :: c3 :: c4 :: rest =>
    if isNd c1 && isNd c2 && isNd c3 && isNd c4 then
      some (1000 * ndVal c1 + 100 * ndVal c2 + 10 * ndVal c3 + ndVal c4, rest)
    else none
  | _ => none

/-- Gregorian leap-year rule, as used by `datetime`. -/
def isLeapYear (y : Nat) : Bool := y % 4 = 0 && (y % 100 ≠ 0 || y % 400 = 0)

/-- Number of days in month `m` of year `y`. -/
def monthLen (y m : Nat) : Nat :=
  if m = 2 then (if isLeapYear y then 29 else 28)
  else if m = 4 || m = 6 || m = 9 || m = 11 then 30 else 31

/-- Validity check performed by the `datetime.date` constructor
(`MINYEAR = 1`; the four-digit year pattern bounds it above by 9999). -/
def validDate (y m d : Nat) : Bool :=
  1 ≤ y && 1 ≤ m && m ≤ 12 && 1 ≤ d && d ≤ monthLen y m

/-- End-to-end model of `datetime.strptime(s, "%Y%m%d").date()`:
regex match, then the unconverted-data check, then date validation. -/
def strptimeDate (s : List Char) : Option (Nat × Nat × Nat) :=
  match yearCand s with
  | none => none
  | some (y, r1) =>
    match mdCand r1 with
    | none => none
    | some (m, d, r2) =>
      if r2 = [] then (if validDate y m d then some (y, m, d) else none)
      else none

/-- Source `is_date_str`: true iff `strptime` succeeds (the bare `except`
turns every failure into `False`). -/
def is_date_str (s : List Char) : Bool := (strptimeDate s).isSome

/-- Proleptic-Gregorian day number of a date (Python `date.toordinal`);
used to model comparison of `date` objects and `timedelta` arithmetic. -/
def toRataDie (y m d : Nat) : Nat :=
  365 * (y - 1) + ((y - 1) / 4 + (y - 1) / 400 - (y - 1) / 100) +
    ([0, 31, 59, 90, 120, 151, 181, 212, 243, 273, 304, 334].getD (m - 1) 0 +
      (if 2 < m && isLeapYear y then 1 else 0)) + d

/-- Source `get_days_ago_date`: `datetime.now() - timedelta(days=days_ago)`,
with "now" passed in as its ordinal day number `todayRD`. -/
def get_days_ago_date (todayRD : Nat) (days_ago : Int) : Int :=
  (todayRD : Int) - days_ago

/-- Source `is_later_date`: `False` when `is_date_str` fails, otherwise the
parsed date compared (as an ordinal) against today minus the window. -/
def is_later_date (s : List Char) (days_ago : Int) (todayRD : Nat) : Bool :=
  if !(is_date_str s) then false
  else
    match strptimeDate s with
    | some (y, m, d) => get_days_ago_date todayRD days_ago ≤ (toRataDie y m d : Int)
    | none => false



/-!
## PartitionSelector + FetchAdapter: `download_s3_folder` / `download_blob_folder`

A provider listing entry is a path (`obj.key` / `blob.name`) together with
the bytes the provider would deliver for it (`bucket.download_file` /
`container_client.download_blob(...).readall()`).  Both download functions
are embedded from the listing loop onward — the SDK client construction and
the location parsing above the loop only build that listing and are external
capability setup.  A staged write records the `os.path.join(local_dir,
partition)/filename` destination and the bytes written there.
-/

/-- One entry of a provider listing: full path plus downloadable content. -/
structure RemoteObj where
  key : List Char
  content : List Char
  deriving DecidableEq

/-- One file materialized under the staging root:
`local_dir/partition/filename` with the downloaded bytes. -/
structure StagedWrite where
  localDir : List Char
  partition : List Char
  filename : List Char
  content : List Char
  deriving DecidableEq

/-- The fixed marker substring `"ranger/audit"` from both download loops. -/
def marker : List Char := "ranger/audit".data

/-- Loop body of `download_s3_folder` over `bucket.objects.filter(...)`:
skip unless the key contains the marker, skip unless the second-to-last
segment is an in-window date, skip empty filenames, else download. -/
def download_s3_folder (days_ago : Int) (todayRD : Nat) (local_dir : List Char) :
    List RemoteObj → List StagedWrite
  | [] => []
  | obj :: rest =>
    if !(pyContains obj.key marker) then
      download_s3_folder days_ago todayRD local_dir rest
    else
      let potential_date_str := pyIdxNeg2 (pySplit '/' obj.key)
      if !(is_date_str potential_date_str) || !(is_later_date potential_date_str days_ago todayRD) then
        download_s3_folder days_ago todayRD local_dir rest
      else
        let filename := pyIdxNeg1 (pySplit '/' obj.key)
        if filename = [] then
          download_s3_folder days_ago todayRD local_dir rest
        else
          ⟨local_dir, potential_date_str, filename, obj.content⟩ ::
            download_s3_folder days_ago todayRD local_dir rest

/-- Loop body of `download_blob_folder` over `container_client.list_blobs()`:
the same three checks on `blob.name`, then the blob bytes are read into
memory and written to the same staging path. -/
def download_blob_folder (days_ago : Int) (todayRD : Nat) (local_dir : List Char) :
    List RemoteObj → List StagedWrite
  | [] => []
  | blob :: rest =>
    if !(pyContains blob.key marker) then
      download_blob_folder days_ago todayRD local_dir rest
    else
      let potential_date_str := pyIdxNeg2 (pySplit '/' blob.key)
      if !(is_date_str potential_date_str) || !(is_later_date potential_date_str days_ago todayRD) then
        download_blob_folder days_ago todayRD local_dir rest
      else
        let filename := pyIdxNeg1 (pySplit '/' blob.key)
        if filename = [] then
          download_blob_folder days_ago todayRD local_dir rest
        else
          ⟨local_dir, potential_date_str, filename, blob.content⟩ ::
            download_blob_folder days_ago todayRD local_dir rest

/-- The three structural acceptance checks of the selection policy, in the
order the loop applies them: marker containment, date-in-window on the
second-to-last segment, non-empty last segment. -/
def acceptObj (days_ago : Int) (todayRD : Nat) (key : List Char) : Bool :=
  pyContains key marker &&
  (is_date_str (pyIdxNeg2 (pySplit '/' key)) &&
    is_later_date (pyIdxNeg2 (pySplit '/' key)) days_ago todayRD) &&
  !(pyIdxNeg1 (pySplit '/' key) = [])

/-- Staging destination and bytes for an accepted listing entry. -/
def stageOf (local_dir : List Char) (o : RemoteObj) : StagedWrite :=
  ⟨local_dir, pyIdxNeg2 (pySplit '/' o.key), pyIdxNeg1 (pySplit '/' o.key), o.content⟩

/-!
## StagingStore and Loader

The staging tree is modelled as `Option (List FsEntry)`: `none` when
`os.path.exists(local_dir)` is false, otherwise the entries `os.scandir`
yields under the root.  JSON parsing (`json.loads`) and the Solr response
status (`response.raise_for_status`) are external and appear as parameters.
-/

/-- A directory entry: a regular file with its bytes, or a subdirectory. -/
inductive FsEntry where
  | file (name : List Char) (content : List Char)
  | dir (name : List Char) (entries : List FsEntry)

/-- Whether an entry is a regular file (`dir_entry.is_file()`). -/
def FsEntry.isFile : FsEntry → Bool
  | .file _ _ => true
  | .dir _ _ => false

/-- Source `read_file_as_json_list`: read the file text, strip trailing
newlines with `rstrip('\n')`, split on `'\n'`, and parse every line with
`json.loads` (the comprehension raises on the first failing line, so the
result is `none` exactly when some line fails to parse). -/
def read_file_as_json_list (loads : List Char → Option α) (file_text : List Char) :
    Option (List α) :=
  (pySplit '\n' (pyRstrip '\n' file_text)).mapM loads

/-- Inner loop of `upload_to_solr` over one partition directory: skip
non-files, parse each file, send one bulk-insert request per file and check
its status.  Returns the request bodies sent, paired with `true` when an
exception (parse failure or non-2xx response) aborted the walk. -/
def uploadFiles (loads : List Char → Option α) (solrOk : List α → Bool) :
    List FsEntry → List (List α) × Bool
  | [] => ([], false)
  | FsEntry.dir _ _ :: rest => uploadFiles loads solrOk rest
  | FsEntry.file _ content :: rest =>
    match read_file_as_json_list loads content with
    | none => ([], true)
    | some json_list =>
      if solrOk json_list then
        let r := uploadFiles loads solrOk rest
        (json_list :: r.1, r.2)
      else ([json_list], true)

/-- Outer loop of `upload_to_solr` over the staging root: skip entries that
are not directories, recurse into each partition directory. -/
def uploadDirs (loads : List Char → Option α) (solrOk : List α → Bool) :
    List FsEntry → List (List α) × Bool
  | [] => ([], false)
  | FsEntry.file _ _ :: rest => uploadDirs loads solrOk rest
  | FsEntry.dir _ entries :: rest =>
    let r := uploadFiles loads solrOk entries
    if r.2 then r
    else
      let r2 := uploadDirs loads solrOk rest
      (r.1 ++ r2.1, r2.2)

/-- Source `upload_to_solr`: early return when the staging root does not
exist, otherwise walk partition directories and insert file by file. -/
def upload_to_solr (loads : List Char → Option α) (solrOk : List α → Bool)
    (root : Option (List FsEntry)) : List (List α) × Bool :=
  match root with
  | none => ([], false)
  | some entries => uploadDirs loads solrOk entries

/-- One `os.remove` call on a scanned entry of a partition directory, then
`os.rmdir` on the directory: `os.remove` raises on a subdirectory, and the
`rmdir` succeeds because every child was just removed.  `none` models the
raised `OSError`. -/
def removeEntry : FsEntry → Option Unit
  | FsEntry.file _ _ => some ()
  | FsEntry.dir _ entries =>
    if entries.all FsEntry.isFile then some () else none

/-- Source `remove_dir`: early return when the root does not exist,
otherwise remove every file and every partition directory under the root
(the root directory itself is kept, emptied).  The outer `Option` models a
raised filesystem error; on success the new staging tree is returned. -/
def remove_dir (root : Option (List FsEntry)) : Option (Option (List FsEntry)) :=
  match root with
  | none => some none
  | some entries =>
    match entries.forM removeEntry with
    | some _ => some (some [])
    | none => none

/-!
## Orchestrator: `main`

`main` is embedded from its `try/except/finally` block onward (the Kerberos
login preceding the block is external credential acquisition).  The cloud
SDK and Solr outcomes are abstracted to three flags saying whether each
stage raises; the observable behavior is the sequence of events plus whether
`main` itself lets an exception escape.
-/

/-- Outcome flags for one run: the user-supplied cloud type and whether each
external stage raises when invoked. -/
structure RunBehavior where
  cloud_type : List Char
  fetch_raises : Bool
  upload_raises : Bool
  cleanup_raises : Bool

/-- Observable events of a run. -/
inductive Ev where
  | fetchAws
  | fetchAzure
  | configError
  | printErr
  | uploadCall
  | cleanup
  deriving DecidableEq

/-- The `try` body of `main`: dispatch on `CLOUD_TYPE.lower()`, download,
then upload.  Returns the events and whether an exception left the body. -/
def tryBody (b : RunBehavior) : List Ev × Bool :=
  if pyLower b.cloud_type = "aws".data then
    if b.fetch_raises then ([Ev.fetchAws], true)
    else if b.upload_raises then ([Ev.fetchAws, Ev.uploadCall], true)
    else ([Ev.fetchAws, Ev.uploadCall], false)
  else if pyLower b.cloud_type = "azure".data then
    if b.fetch_raises then ([Ev.fetchAzure], true)
    else if b.upload_raises then ([Ev.fetchAzure, Ev.uploadCall], true)
    else ([Ev.fetchAzure, Ev.uploadCall], false)
  else ([Ev.configError], true)

/-- Source `main`, from the `try` statement: any exception from the body is
caught by `except Exception` and printed; the `finally` block always invokes
`remove_dir`, and only an exception raised by that cleanup escapes `main`. -/
def main (b : RunBehavior) : List Ev × Bool :=
  let body := tryBody b
  let reported := if body.2 then body.1 ++ [Ev.printErr] else body.1
  (reported ++ [Ev.cleanup], b.cleanup_raises)

/-!
## Spec-side definitions (for refutations and refinement comparison)

These follow the specification's words, not the source, and exist solely to
be compared with the source-derived definitions above.
-/

/-- Spec's notion of a valid date label: exactly 8 digits forming a valid
`YYYYMMDD` calendar date. -/
def isDateLabelSpec (s : List Char) : Bool :=
  match s with
  | [c1, c2, c3, c4, c5, c6, c7, c8] =>
    isDig c1 && isDig c2 && isDig c3 && isDig c4 &&
    isDig c5 && isDig c6 && isDig c7 && isDig c8 &&
    validDate (1000 * dv c1 + 100 * dv c2 + 10 * dv c3 + dv c4)
      (10 * dv c5 + dv c6) (10 * dv c7 + dv c8)
  | _ => false

/-- Python `s[:-1] if s.endswith('\n') else s`: the spec's "strip a single
trailing newline if present". -/
def stripSingleNl (s : List Char) : List Char :=
  match s.reverse with
  | '\n' :: rest => rest.reverse
  | _ => s

/-- The Loader algorithm exactly as the spec words it: strip a single
trailing newline, split on newline, parse each line. -/
def readFileSpecAlg (loads : List Char → Option α) (file_text : List Char) :
    Option (List α) :=
  (pySplit '\n' (stripSingleNl file_text)).mapM loads

/-- Modelled from the spec: a stand-in for the external `json.loads` on one
line — every non-empty line is taken as one record (the line itself), and
the empty line fails because the empty string is not a JSON value. -/
def jsonLoadsStub (s : List Char) : Option (List Char) :=
  if s = [] then none else some s


/-- Two-digit day forms accepted by the day pattern: exactly the values 1–31
written with two digit characters. -/
def day2ok (c1 c2 : Char) : Bool :=
  isDig c1 && isDig c2 && decide (1 ≤ 10 * dv c1 + dv c2) &&
    decide (10 * dv c1 + dv c2 ≤ 31)

/-- Two-digit month forms accepted by the month pattern: exactly the values
1–12 written with two digit characters. -/
def month2ok (c1 c2 : Char) : Bool :=
  isDig c1 && isDig c2 && decide (1 ≤ 10 * dv c1 + dv c2) &&
    decide (10 * dv c1 + dv c2 ≤ 12)

/-- The first record line of the spec's Loader example, `{"a":1}` (braces
escaped as character codes). -/
def lineA : List Char :=
  ['\x7b', '\x22', 'a', '\x22', ':', '1', '\x7d']

/-- The second record line of the spec's Loader example, `{"b":2}`. -/
def lineB : List Char :=
  ['\x7b', '\x22', 'b', '\x22', ':', '2', '\x7d']

example : is_date_str "20230101".data = true := by decide
example : is_date_str "2023011".data = true := by decide
example : is_date_str "20230230".data = false := by decide
example : is_date_str "20231301".data = false := by decide
example : is_date_str "202311".data = true := by decide
example : is_date_str "2023".data = false := by decide
example : is_date_str "20230229".data = false := by decide
example : is_date_str "20240229".data = true := by decide
example : is_date_str "20231294".data = false := by decide
example : is_date_str "202301 1".data = true := by decide
example : is_date_str "2023 1 1".data = false := by decide
example : is_date_str "2023011\u0662".data = true := by decide
example : is_later_date "202301 1".data 30 (toRataDie 2023 1 10) = true := by decide
example : toRataDie 2023 1 10 = 738530 := by decide
example : is_later_date "20230108".data 2 (toRataDie 2023 1 10) = true := by decide
example : is_later_date "20230107".data 2 (toRataDie 2023 1 10) = false := by decide
example : is_later_date "2023011".data 30 (toRataDie 2023 1 10) = true := by decide
example : pySplit '/' "a/b".data = ["a".data, "b".data] := by decide
example : pySplit '/' "".data = ["".data] := by decide
example : pyContains "cluster/ranger/audit/hdfs/20230101/f.log".data "ranger/audit".data = true := by decide
example : pyIdxNeg2 (pySplit '/' "ranger/audit/20230101/f.log".data) = "20230101".data := by decide
example : pyIdxNeg1 (pySplit '/' "ranger/audit/20230101/f.log".data) = "f.log".data := by decide
example : pyLower "AwS".data = "aws".data := by decide
example : pyRstrip '\n' "ab\n\n".data = "ab".data := by decide
example : jsonLoadsStub [] = none := by decide

/-!
## Helper lemmas
-/

/-- Membership transfers along a matched prefix. -/
lemma pyStartsWith_mem {s pat : List Char} {x : Char}
    (h : pyStartsWith s pat = true) (hx : x ∈ pat) : x ∈ s := by
  induction s generalizing pat with
  | nil =>
    cases pat with
    | nil => cases hx
    | cons p ps => simp [pyStartsWith] at h
  | cons c cs ih =>
    cases pat with
    | nil => cases hx
    | cons p ps =>
      simp only [pyStartsWith, Bool.and_eq_true, decide_eq_true_eq] at h
      rcases List.mem_cons.mp hx with hxp | hxps
      · exact List.mem_cons.mpr (Or.inl (hxp.trans h.1.symm))
      · exact List.mem_cons.mpr (Or.inr (ih h.2 hxps))

/-- Membership transfers along substring containment. -/
lemma pyContains_mem {s pat : List Char} {x : Char}
    (h : pyContains s pat = true) (hx : x ∈ pat) : x ∈ s := by
  induction s with
  | nil =>
    cases pat with
    | nil => cases hx
    | cons p ps => simp [pyContains, pyStartsWith] at h
  | cons c cs ih =>
    simp only [pyContains, Bool.or_eq_true] at h
    rcases h with h | h
    · exact pyStartsWith_mem h hx
    · exact List.mem_cons.mpr (Or.inr (ih h))

/-- Python `split` never returns an empty list of parts. -/
lemma pySplit_ne_nil (sep : Char) (s : List Char) : pySplit sep s ≠ [] := by
  cases s with
  | nil => simp [pySplit]
  | cons c cs =>
    simp only [pySplit]
    cases h : pySplit sep cs with
    | nil => simp
    | cons p ps =>
      by_cases hc : c = sep <;> simp [hc]

/-- A string containing the separator splits into at least two parts. -/
lemma pySplit_length_of_mem {sep : Char} {s : List Char} (h : sep ∈ s) :
    2 ≤ (pySplit sep s).length := by
  induction s with
  | nil => cases h
  | cons c cs ih =>
    simp only [pySplit]
    cases hps : pySplit sep cs with
    | nil => exact absurd hps (pySplit_ne_nil sep cs)
    | cons p ps =>
      by_cases hc : c = sep
      · simp [hc]
      · have hmem : sep ∈ cs := by
          rcases List.mem_cons.mp h with h1 | h1
          · exact absurd h1.symm hc
          · exact h1
        have := ih hmem
        rw [hps] at this
        simp only [List.length_cons] at this ⊢
        simp [hc]; omega

/-- Characters are determined by their code points. -/
lemma char_eq_iff (a b : Char) : (a = b) ↔ (a.toNat = b.toNat) :=
  ⟨fun h => h ▸ rfl, fun h => Char.ext (UInt32.ext h)⟩

lemma cN0 : ('0' : Char).toNat = 48 := rfl
lemma cN1 : ('1' : Char).toNat = 49 := rfl
lemma cN2 : ('2' : Char).toNat = 50 := rfl
lemma cN3 : ('3' : Char).toNat = 51 := rfl
lemma cNsp : (' ' : Char).toNat = 32 := rfl

/-- ASCII digits are Unicode decimal digits (the first Nd block). -/
lemma isNd_of_isDig (c : Char) (h : isDig c = true) : isNd c = true := by
  simp only [isDig, Bool.and_eq_true, decide_eq_true_eq] at h
  simp only [isNd, ndStarts, List.any_cons, List.any_nil, Bool.or_eq_true,
    Bool.and_eq_true, decide_eq_true_eq]
  omega

/-- On ASCII digits, `int()`'s per-character decimal value is the usual
ASCII one. -/
lemma ndVal_of_isDig (c : Char) (h : isDig c = true) : ndVal c = dv c := by
  simp only [isDig, Bool.and_eq_true, decide_eq_true_eq] at h
  have hf : List.find? (fun s => s ≤ c.toNat && c.toNat < s + 10) ndStarts =
      some 48 := by
    apply List.find?_cons_of_pos
    simp only [Bool.and_eq_true, decide_eq_true_eq]
    omega
  simp only [ndVal, hf, dv]

/-- On a two-character remainder, a day value of 1–31 written with two
digits is matched whole: the two-digit alternatives come first. -/
lemma dayCand_two_full (c1 c2 : Char) (hd : day2ok c1 c2 = true) :
    dayCand [c1, c2] = some (10 * dv c1 + dv c2, []) := by
  have hdig2 : isDig c2 = true := by
    simp only [day2ok, Bool.and_eq_true] at hd
    exact hd.1.1.2
  have hnd := isNd_of_isDig c2 hdig2
  have hnv := ndVal_of_isDig c2 hdig2
  simp only [day2ok, char_eq_iff, cN0, cN1, cN2, cN3, isDig, dv,
    Bool.and_eq_true, Bool.or_eq_true, decide_eq_true_eq] at hd
  simp only [dayCand, hnd, hnv, Bool.and_true]
  split_ifs <;>
    simp only [char_eq_iff, cN0, cN1, cN2, cN3, cNsp, isDig, dv, Bool.and_eq_true,
      Bool.or_eq_true, Bool.not_eq_true', Bool.not_eq_false', decide_eq_true_eq, not_and, not_or,
      Bool.not_eq_true, Bool.and_eq_false_iff, Bool.or_eq_false_iff,
      decide_eq_false_iff_not, Option.some.injEq, Prod.mk.injEq,
      List.cons.injEq, and_true, true_and, reduceCtorEq] at * <;>
    omega

/-- On a two-character all-digit remainder with the two-digit day forms out
of range, a digit `1`–`9` matches alone and leaves the second character
unconsumed. -/
lemma dayCand_two_one (c1 c2 : Char) (hd : day2ok c1 c2 = false)
    (hdig2 : isDig c2 = true) (h4 : (isDig c1 && !(c1 = '0')) = true) :
    dayCand [c1, c2] = some (dv c1, [c2]) := by
  have hnd := isNd_of_isDig c2 hdig2
  have hnv := ndVal_of_isDig c2 hdig2
  simp only [day2ok, char_eq_iff, cN0, cN1, cN2, cN3, isDig, dv,
    Bool.and_eq_true, Bool.or_eq_true, Bool.not_eq_true', Bool.not_eq_false', decide_eq_true_eq,
    Bool.and_eq_false_iff, Bool.or_eq_false_iff, decide_eq_false_iff_not] at hd hdig2 h4
  simp only [dayCand, hnd, hnv, Bool.and_true]
  split_ifs <;>
    simp only [char_eq_iff, cN0, cN1, cN2, cN3, cNsp, isDig, dv, Bool.and_eq_true,
      Bool.or_eq_true, Bool.not_eq_true', Bool.not_eq_false', decide_eq_true_eq, not_and, not_or,
      Bool.not_eq_true, Bool.and_eq_false_iff, Bool.or_eq_false_iff,
      decide_eq_false_iff_not, Option.some.injEq, Prod.mk.injEq,
      List.cons.injEq, and_true, true_and, reduceCtorEq] at * <;>
    omega

/-- On a two-character all-digit remainder where neither a two-digit day
nor a leading digit `1`–`9` is available, the day pattern fails (the
space-padded alternative cannot apply to a digit). -/
lemma dayCand_two_none (c1 c2 : Char) (hd : day2ok c1 c2 = false)
    (hdig1 : isDig c1 = true) (hdig2 : isDig c2 = true)
    (h4 : (isDig c1 && !(c1 = '0')) = false) :
    dayCand [c1, c2] = none := by
  have hnd := isNd_of_isDig c2 hdig2
  have hnv := ndVal_of_isDig c2 hdig2
  simp only [day2ok, char_eq_iff, cN0, cN1, cN2, cN3, isDig, dv,
    Bool.and_eq_true, Bool.or_eq_true, Bool.not_eq_true', Bool.not_eq_false', decide_eq_true_eq,
    Bool.and_eq_false_iff, Bool.or_eq_false_iff, decide_eq_false_iff_not] at hd hdig1 hdig2 h4
  simp only [dayCand, hnd, hnv, Bool.and_true]
  split_ifs <;>
    simp only [char_eq_iff, cN0, cN1, cN2, cN3, cNsp, isDig, dv, Bool.and_eq_true,
      Bool.or_eq_true, Bool.not_eq_true', Bool.not_eq_false', decide_eq_true_eq, not_and, not_or,
      Bool.not_eq_true, Bool.and_eq_false_iff, Bool.or_eq_false_iff,
      decide_eq_false_iff_not, Option.some.injEq, Prod.mk.injEq,
      List.cons.injEq, and_true, true_and, reduceCtorEq] at * <;>
    omega

/-- The day pattern consumes at most two characters, so on a remainder of
three or more characters it always leaves something unconsumed. -/
lemma dayCand_cons_rest (c1 c2 : Char) (r : List Char) (v : Nat) (rest : List Char)
    (h : dayCand (c1 :: c2 :: r) = some (v, rest)) :
    rest = r ∨ rest = c2 :: r := by
  simp only [dayCand] at h
  split_ifs at h <;> simp_all

/-- The month+day matcher on a three-character remainder never consumes
everything: the day part takes at most two characters. -/
lemma tryAlt_three_no_full (mv : Nat) (x y z : Char) (m d : Nat) :
    tryAlt mv [x, y, z] ≠ some (m, d, []) := by
  unfold tryAlt
  rcases hdc : dayCand [x, y, z] with _ | ⟨v3, r3⟩
  · simp
  · rcases dayCand_cons_rest x y [z] v3 r3 hdc with hr | hr <;> subst hr <;> simp

/-- Reduction of the month+day matcher when the day pattern fails. -/
lemma tryAlt_none (mv : Nat) (r : List Char) (h : dayCand r = none) :
    tryAlt mv r = none := by
  simp [tryAlt, h]

/-- Reduction of the month+day matcher when the day pattern matches. -/
lemma tryAlt_some (mv : Nat) (r : List Char) (d : Nat) (rr : List Char)
    (h : dayCand r = some (d, rr)) :
    tryAlt mv r = some (mv, d, rr) := by
  simp [tryAlt, h]

/-- When both two-digit forms are in range, the regex takes them (the
two-digit alternatives precede the one-digit ones) and consumes all four
characters. -/
lemma mdCand_four_pos (e f g h : Char)
    (hm : month2ok e f = true) (hd : day2ok g h = true) :
    mdCand [e, f, g, h] = some (10 * dv e + dv f, 10 * dv g + dv h, []) := by
  have hdc := dayCand_two_full g h hd
  have ht1 := tryAlt_some (10 + dv f) [g, h] (10 * dv g + dv h) [] hdc
  have ht2 := tryAlt_some (dv f) [g, h] (10 * dv g + dv h) [] hdc
  have hm' := hm
  simp only [month2ok, isDig, dv, Bool.and_eq_true, decide_eq_true_eq] at hm'
  by_cases h49 : e.toNat = 49
  · have hc1 : (e = '1' && (f = '0' || f = '1' || f = '2')) = true := by
      simp only [char_eq_iff, cN0, cN1, cN2, Bool.and_eq_true, Bool.or_eq_true,
        decide_eq_true_eq]
      omega
    simp only [mdCand, hc1, eq_self_iff_true, if_true, ht1]
    simp only [Option.some.injEq, Prod.mk.injEq, dv, and_true, true_and]
    omega
  · have hc1 : (e = '1' && (f = '0' || f = '1' || f = '2')) = false := by
      simp only [char_eq_iff, cN1, Bool.and_eq_false_iff, decide_eq_false_iff_not]
      left; omega
    have hc2 : (e = '0' && (isDig f && !(f = '0'))) = true := by
      simp only [char_eq_iff, cN0, isDig, Bool.and_eq_true, Bool.not_eq_true', Bool.not_eq_false',
        decide_eq_true_eq, decide_eq_false_iff_not]
      omega
    simp only [mdCand, hc1, hc2, Bool.false_eq_true, if_false, eq_self_iff_true,
      if_true, ht2]
    simp only [Option.some.injEq, Prod.mk.injEq, dv, and_true, true_and]
    omega

/-- When the two-digit forms are not both in range, no backtracking path of
the month+day regex consumes exactly four remaining ASCII-digit characters
(the digit restriction on the day characters rules the space-padded and
Unicode-digit day alternatives out). -/
lemma mdCand_four_neg (e f g h : Char)
    (dg : isDig g = true) (dh : isDig h = true)
    (hneg : (month2ok e f && day2ok g h) = false) :
    ∀ m d, mdCand [e, f, g, h] ≠ some (m, d, []) := by
  intro m d hcontra
  by_cases hc1 : (e = '1' && (f = '0' || f = '1' || f = '2')) = true
  · have hm : month2ok e f = true := by
      simp only [char_eq_iff, cN0, cN1, cN2, Bool.and_eq_true, Bool.or_eq_true,
        decide_eq_true_eq] at hc1
      simp only [month2ok, isDig, dv, Bool.and_eq_true, decide_eq_true_eq]
      omega
    have hd : day2ok g h = false := by
      cases hday : day2ok g h with
      | false => rfl
      | true => rw [hm, hday] at hneg; simp at hneg
    by_cases h4 : (isDig g && !(g = '0')) = true
    · have ht := tryAlt_some (10 + dv f) [g, h] (dv g) [h]
        (dayCand_two_one g h hd dh h4)
      simp only [mdCand, hc1, eq_self_iff_true, if_true, ht] at hcontra
      simp at hcontra
    · have ht := tryAlt_none (10 + dv f) [g, h]
        (dayCand_two_none g h hd dg dh (eq_false_of_ne_true h4))
      have hc2 : (e = '0' && (isDig f && !(f = '0'))) = false := by
        simp only [char_eq_iff, cN0, cN1, cN2, Bool.and_eq_true, Bool.or_eq_true,
          decide_eq_true_eq] at hc1
        simp only [char_eq_iff, cN0, Bool.and_eq_false_iff, decide_eq_false_iff_not]
        left; omega
      have hc3 : (isDig e && !(e = '0')) = true := by
        simp only [char_eq_iff, cN0, cN1, cN2, Bool.and_eq_true, Bool.or_eq_true,
          decide_eq_true_eq] at hc1
        simp only [isDig, char_eq_iff, cN0, Bool.and_eq_true, Bool.not_eq_true', Bool.not_eq_false',
          decide_eq_true_eq, decide_eq_false_iff_not]
        omega
      simp only [mdCand, hc1, eq_self_iff_true, if_true, ht, hc2,
        Bool.false_eq_true, if_false, hc3] at hcontra
      exact tryAlt_three_no_full (dv e) f g h m d hcontra
  · have hc1' := eq_false_of_ne_true hc1
    by_cases hc2 : (e = '0' && (isDig f && !(f = '0'))) = true
    · have hm : month2ok e f = true := by
        simp only [char_eq_iff, cN0, isDig, Bool.and_eq_true, Bool.not_eq_true', Bool.not_eq_false',
          decide_eq_true_eq, decide_eq_false_iff_not] at hc2
        simp only [month2ok, isDig, dv, Bool.and_eq_true, decide_eq_true_eq]
        omega
      have hd : day2ok g h = false := by
        cases hday : day2ok g h with
        | false => rfl
        | true => rw [hm, hday] at hneg; simp at hneg
      by_cases h4 : (isDig g && !(g = '0')) = true
      · have ht := tryAlt_some (dv f) [g, h] (dv g) [h]
          (dayCand_two_one g h hd dh h4)
        simp only [mdCand, hc1', Bool.false_eq_true, if_false, hc2,
          eq_self_iff_true, if_true, ht] at hcontra
        simp at hcontra
      · have ht := tryAlt_none (dv f) [g, h]
          (dayCand_two_none g h hd dg dh (eq_false_of_ne_true h4))
        have hc3 : (isDig e && !(e = '0')) = false := by
          simp only [char_eq_iff, cN0, isDig, Bool.and_eq_true, Bool.not_eq_true', Bool.not_eq_false',
            decide_eq_true_eq, decide_eq_false_iff_not] at hc2
          simp only [isDig, char_eq_iff, cN0, Bool.and_eq_false_iff,
            Bool.not_eq_false']
          right
          simp only [decide_eq_true_eq]
          omega
        simp only [mdCand, hc1', Bool.false_eq_true, if_false, hc2,
          eq_self_iff_true, if_true, ht, hc3] at hcontra
        exact Option.noConfusion hcontra
    · have hc2' := eq_false_of_ne_true hc2
      by_cases hc3 : (isDig e && !(e = '0')) = true
      · simp only [mdCand, hc1', hc2', Bool.false_eq_true, if_false, hc3,
          eq_self_iff_true, if_true] at hcontra
        exact tryAlt_three_no_full (dv e) f g h m d hcontra
      · have hc3' := eq_false_of_ne_true hc3
        simp only [mdCand, hc1', hc2', hc3', Bool.false_eq_true, if_false] at hcontra
        exact Option.noConfusion hcontra

/-- The `except` clause's `print(ex)` event is never produced inside the
`try` body. -/
lemma printErr_not_mem_tryBody (b : RunBehavior) : Ev.printErr ∉ (tryBody b).1 := by
  unfold tryBody
  split_ifs <;> decide

/-!
## Claims
-/

/-- C1: every exception raised by the fetch stage or the load stage is
caught at the orchestrator and reported (the `printErr` event) without being
re-raised; the staging cleanup is invoked unconditionally as the last step
on every exit path; and only an exception from the cleanup itself escapes
`main`. -/
theorem C1_orchestrator_cleanup (b : RunBehavior) :
    Ev.cleanup ∈ (main b).1 ∧
    (main b).1.getLast? = some Ev.cleanup ∧
    (main b).2 = b.cleanup_raises ∧
    (Ev.printErr ∈ (main b).1 ↔ (tryBody b).2 = true) := by
  refine ⟨?_, ?_, rfl, ?_⟩
  · simp [main]
  · simp [main, List.getLast?_concat]
  · constructor
    · intro h
      by_cases hb : (tryBody b).2 = true
      · exact hb
      · exfalso
        have hb' : (tryBody b).2 = false := eq_false_of_ne_true hb
        simp only [main, hb', Bool.false_eq_true, if_false, List.mem_append,
          List.mem_singleton, reduceCtorEq, or_false] at h
        exact printErr_not_mem_tryBody b h
    · intro h
      simp [main, h]

/-- C2 counterexample: an object whose partition label `"202301 1"` is not
a valid 8-digit date label is nevertheless staged — `strptime`'s
space-padded day alternative accepts the label and it lies inside the
window — refuting check (2) as stated. -/
theorem C2_counterexample :
    download_s3_folder 30 (toRataDie 2023 1 10) "tmp_logs".data
        [⟨"bucket/ranger/audit/hdfs/202301 1/f.log".data, "x".data⟩] =
      [⟨"tmp_logs".data, "202301 1".data, "f.log".data, "x".data⟩] ∧
    isDateLabelSpec "202301 1".data = false := by
  exact ⟨by decide, by decide⟩

/-- C2 (amended): the object-store fetch stages exactly the listing entries
passing the three structural checks in listing order — marker containment;
the second-to-last segment accepted by the code's `strptime`-based date
check (every valid date label, but also forms like `"202301 1"`) and inside
the window; non-empty filename — and rejects nothing else. -/
theorem C2_selection_policy (days_ago : Int) (todayRD : Nat)
    (local_dir : List Char) (objs : List RemoteObj) :
    download_s3_folder days_ago todayRD local_dir objs =
      objs.filterMap (fun o =>
        if acceptObj days_ago todayRD o.key then some (stageOf local_dir o) else none) := by
  induction objs with
  | nil => rfl
  | cons o rest ih =>
    simp only [download_s3_folder, List.filterMap_cons]
    rw [ih]
    cases h1 : pyContains o.key marker <;>
      cases h2 : is_date_str (pyIdxNeg2 (pySplit '/' o.key)) <;>
        cases h3 : is_later_date (pyIdxNeg2 (pySplit '/' o.key)) days_ago todayRD <;>
          by_cases h4 : pyIdxNeg1 (pySplit '/' o.key) = [] <;>
            simp [acceptObj, stageOf, h1, h2, h3, h4]

/-- C7: on identical listings (same paths, same per-object bytes) the
object-store and blob-store fetch variants stage exactly the same files with
byte-identical contents. -/
theorem C7_provider_equivalence (days_ago : Int) (todayRD : Nat)
    (local_dir : List Char) (objs : List RemoteObj) :
    download_s3_folder days_ago todayRD local_dir objs =
      download_blob_folder days_ago todayRD local_dir objs := by
  induction objs with
  | nil => rfl
  | cons o rest ih =>
    simp only [download_s3_folder, download_blob_folder]
    split_ifs <;> simp [ih]

/-- C8: the cloud-type flag accepts exactly the two values whose
lower-casing is `"aws"` or `"azure"`; any other value raises the
configuration error before any fetch or index call is attempted. -/
theorem C8_cloud_type_dispatch (b : RunBehavior) :
    ((Ev.configError ∈ (main b).1) ↔
      ¬(pyLower b.cloud_type = "aws".data ∨ pyLower b.cloud_type = "azure".data)) ∧
    (Ev.configError ∈ (main b).1 →
      Ev.fetchAws ∉ (main b).1 ∧ Ev.fetchAzure ∉ (main b).1 ∧
      Ev.uploadCall ∉ (main b).1) := by
  unfold main tryBody
  by_cases ha : pyLower b.cloud_type = "aws".data
  · by_cases hf : b.fetch_raises <;> by_cases hu : b.upload_raises <;>
      simp [ha, hf, hu]
  · by_cases hz : pyLower b.cloud_type = "azure".data
    · by_cases hf : b.fetch_raises <;> by_cases hu : b.upload_raises <;>
        simp [ha, hz, hf, hu]
    · simp [ha, hz]

/-- Witness for C8 at the concrete rejected flag value `"gcp"`. -/
theorem C8_witness :
    Ev.configError ∈ (main ⟨"gcp".data, false, false, false⟩).1 ∧
    Ev.fetchAws ∉ (main ⟨"gcp".data, false, false, false⟩).1 ∧
    Ev.fetchAzure ∉ (main ⟨"gcp".data, false, false, false⟩).1 ∧
    Ev.uploadCall ∉ (main ⟨"gcp".data, false, false, false⟩).1 := by
  refine ⟨by decide, (C8_cloud_type_dispatch ⟨"gcp".data, false, false, false⟩).2 (by decide)⟩

/-- C9: clearing the staging root is idempotent at the public interface —
a missing root is a no-op, a second call after a successful call is a no-op,
and a successful call leaves the root absent or empty. -/
theorem C9_remove_dir_idempotent (root fs' : Option (List FsEntry))
    (h : remove_dir root = some fs') :
    remove_dir fs' = some fs' ∧ (fs' = none ∨ fs' = some []) := by
  cases root with
  | none =>
    simp only [remove_dir] at h
    cases h
    exact ⟨rfl, Or.inl rfl⟩
  | some entries =>
    simp only [remove_dir] at h
    cases hf : entries.forM removeEntry with
    | none => rw [hf] at h; cases h
    | some u =>
      rw [hf] at h
      cases h
      exact ⟨rfl, Or.inr rfl⟩

/-- Witness for C9: a successful clear of a one-partition staging tree,
followed by a provably no-op second clear. -/
theorem C9_witness :
    remove_dir (some [FsEntry.dir "20230101".data [FsEntry.file "f.log".data "x".data]]) =
      some (some []) ∧
    remove_dir (some []) = some (some []) := by
  have h : remove_dir (some [FsEntry.dir "20230101".data [FsEntry.file "f.log".data "x".data]]) =
      some (some []) := rfl
  exact ⟨h, (C9_remove_dir_idempotent _ _ h).1⟩

/-- C10: any listed path containing the marker substring splits into at
least two segments, so the second-to-last and last segment selections are
always in bounds. -/
theorem C10_marker_segments (key : List Char)
    (h : pyContains key marker = true) :
    2 ≤ (pySplit '/' key).length := by
  have hslash : '/' ∈ key := pyContains_mem h (by decide)
  exact pySplit_length_of_mem hslash

/-- Witness for C10 at a concrete marker-containing path. -/
theorem C10_witness :
    pyContains "bucket/ranger/audit/hdfs/20230101/a.log".data marker = true ∧
    2 ≤ (pySplit '/' "bucket/ranger/audit/hdfs/20230101/a.log".data).length :=
  ⟨by decide, C10_marker_segments _ (by decide)⟩

/-- Every month has at most 31 days. -/
lemma monthLen_le (y m : Nat) : monthLen y m ≤ 31 := by
  unfold monthLen
  split_ifs <;> omega

/-- On eight-character all-ASCII-digit inputs, the `strptime`-based check
agrees exactly with the specification's notion of an 8-digit `YYYYMMDD`
date label.  (Without the digit restriction the two differ: the program also
accepts space-padded days and Unicode digits.) -/
lemma strptime_eight_digits (a b c d e f g h : Char)
    (hall : (isDig a && isDig b && isDig c && isDig d && isDig e && isDig f &&
      isDig g && isDig h) = true) :
    is_date_str [a, b, c, d, e, f, g, h] = isDateLabelSpec [a, b, c, d, e, f, g, h] := by
  simp only [Bool.and_eq_true] at hall
  obtain ⟨⟨⟨⟨⟨⟨⟨da, db⟩, dc⟩, dd⟩, de⟩, df⟩, dg⟩, dh⟩ := hall
  have hyc : yearCand [a, b, c, d, e, f, g, h] =
      some (1000 * dv a + 100 * dv b + 10 * dv c + dv d, [e, f, g, h]) := by
    simp [yearCand, isNd_of_isDig a da, isNd_of_isDig b db,
      isNd_of_isDig c dc, isNd_of_isDig d dd, ndVal_of_isDig a da,
      ndVal_of_isDig b db, ndVal_of_isDig c dc, ndVal_of_isDig d dd]
  by_cases hmd : (month2ok e f && day2ok g h) = true
  · rw [Bool.and_eq_true] at hmd
    obtain ⟨hm, hdk⟩ := hmd
    have hmc := mdCand_four_pos e f g h hm hdk
    simp only [is_date_str, strptimeDate, hyc, hmc, eq_self_iff_true, if_true,
      isDateLabelSpec]
    cases hv : validDate (1000 * dv a + 100 * dv b + 10 * dv c + dv d)
      (10 * dv e + dv f) (10 * dv g + dv h) with
    | false => simp [hv]
    | true =>
      simp only [hv, if_true, eq_self_iff_true, Option.isSome_some, Bool.and_true]
      simp [da, db, dc, dd, de, df, dg, dh]
  · have hneg2 := mdCand_four_neg e f g h dg dh (eq_false_of_ne_true hmd)
    have hspec : isDateLabelSpec [a, b, c, d, e, f, g, h] = false := by
      cases hsp : isDateLabelSpec [a, b, c, d, e, f, g, h] with
      | false => rfl
      | true =>
        exfalso
        apply hmd
        have hml := monthLen_le (1000 * dv a + 100 * dv b + 10 * dv c + dv d)
          (10 * dv e + dv f)
        simp only [isDateLabelSpec, validDate, Bool.and_eq_true,
          decide_eq_true_eq, isDig, dv] at hsp
        simp only [month2ok, day2ok, isDig, dv, Bool.and_eq_true,
          decide_eq_true_eq]
        simp only [dv] at hml
        omega
    rcases hmc : mdCand [e, f, g, h] with _ | ⟨mm, dd2, rr⟩
    · simp only [is_date_str, strptimeDate, hyc, hmc, Option.isSome_none, hspec]
    · have hrr : rr ≠ [] := by
        intro hreq
        rw [hreq] at hmc
        exact hneg2 mm dd2 hmc
      simp only [is_date_str, strptimeDate, hyc, hmc, hspec]
      rw [if_neg hrr]
      simp

/-- C3 counterexample: the code accepts `"2023011"` (parsed by `strptime`
as 2023-01-01 via a one-digit day), which is not an 8-digit date label, so
"true iff exactly 8 digits forming a valid date" fails. -/
theorem C3_counterexample :
    is_date_str "2023011".data = true ∧ isDateLabelSpec "2023011".data = false := by
  exact ⟨by decide, by decide⟩

/-- C3 (amended): on strings of exactly 8 ASCII digits, `is_date_str` is
true iff they form a valid `YYYYMMDD` calendar date; but the underlying
`strptime("%Y%m%d")` also accepts strings that are not 8-digit date labels:
shorter forms like `"2023011"`, space-padded days like `"202301 1"`, and
Unicode-digit forms like `"2023011"` followed by U+0662 (Arabic-Indic two,
parsed as day 12). -/
theorem C3_amended_date_label :
    (∀ s : List Char, s.length = 8 → (∀ c ∈ s, isDig c = true) →
      is_date_str s = isDateLabelSpec s) ∧
    is_date_str "2023011".data = true ∧
    is_date_str "202301 1".data = true ∧
    is_date_str "2023011\u0662".data = true := by
  refine ⟨?_, by decide, by decide, by decide⟩
  intro s hlen hdig
  rcases s with _ | ⟨a, _ | ⟨b, _ | ⟨c, _ | ⟨d, _ | ⟨e, _ | ⟨f, _ | ⟨g, _ | ⟨h, _ | ⟨i, t⟩⟩⟩⟩⟩⟩⟩⟩⟩ <;>
    simp only [List.length_cons, List.length_nil] at hlen
  all_goals try omega
  apply strptime_eight_digits
  have da := hdig a (by simp)
  have db := hdig b (by simp)
  have dc := hdig c (by simp)
  have dd := hdig d (by simp)
  have de := hdig e (by simp)
  have df := hdig f (by simp)
  have dg := hdig g (by simp)
  have dh := hdig h (by simp)
  simp [da, db, dc, dd, de, df, dg, dh]

/-- Witness for C3 at the rejected invalid date `"20230230"`. -/
theorem C3_witness :
    is_date_str "20230230".data = isDateLabelSpec "20230230".data ∧
    isDateLabelSpec "20230230".data = false :=
  ⟨C3_amended_date_label.1 _ (by decide) (by decide), by decide⟩

/-- C6 counterexample: neither `"202301 1"` (space-padded day) nor
`"2023011"` is a valid 8-digit date label, yet `is_later_date` does not
return false on them — it parses and compares both. -/
theorem C6_counterexample :
    isDateLabelSpec "202301 1".data = false ∧
    is_later_date "202301 1".data 30 (toRataDie 2023 1 10) = true ∧
    isDateLabelSpec "2023011".data = false ∧
    is_later_date "2023011".data 30 (toRataDie 2023 1 10) = true := by
  exact ⟨by decide, by decide, by decide, by decide⟩

/-- C6 (amended): whenever the `%Y%m%d` parse succeeds — which covers every
valid 8-digit date label but also shorter, space-padded and Unicode-digit
forms — `is_later_date` is true iff the parsed date is on or after today
minus the window; whenever the parse fails it returns false. -/
theorem C6_amended_window (s : List Char) (n : Int) (todayRD : Nat) :
    (is_date_str s = false → is_later_date s n todayRD = false) ∧
    (∀ y m d : Nat, strptimeDate s = some (y, m, d) →
      (is_later_date s n todayRD = true ↔
        (todayRD : Int) - n ≤ (toRataDie y m d : Int))) := by
  constructor
  · intro h
    simp [is_later_date, h]
  · intro y m d hp
    have hds : is_date_str s = true := by simp [is_date_str, hp]
    simp [is_later_date, hds, hp, get_days_ago_date]

/-- Witness for C6 at the claim's boundary: today 2023-01-10, window 2,
`"20230108"` is in, `"20230107"` is out. -/
theorem C6_witness :
    is_later_date "20230108".data 2 (toRataDie 2023 1 10) = true ∧
    is_later_date "20230107".data 2 (toRataDie 2023 1 10) = false := by
  constructor
  · exact ((C6_amended_window "20230108".data 2 (toRataDie 2023 1 10)).2
      2023 1 8 (by decide)).mpr (by decide)
  · have hiff := (C6_amended_window "20230107".data 2 (toRataDie 2023 1 10)).2
      2023 1 7 (by decide)
    have hlt : ¬((toRataDie 2023 1 10 : Int) - 2 ≤ (toRataDie 2023 1 7 : Int)) := by
      decide
    exact eq_false_of_ne_true (fun hc => hlt (hiff.mp hc))

/-- Appending one more newline to any content never changes the parsed
record list, because `rstrip` removes every trailing newline. -/
lemma pyRstrip_append_nl (s : List Char) :
    pyRstrip '\n' (s ++ ['\n']) = pyRstrip '\n' s := by
  unfold pyRstrip
  rw [List.reverse_append]
  simp [List.dropWhile_cons]

/-- C4 counterexample: on content `"1\n\n"` the code (which strips all
trailing newlines) parses one record, while the claim's algorithm (strip a
single trailing newline, then split) would fail on the resulting empty
line. -/
theorem C4_counterexample :
    read_file_as_json_list jsonLoadsStub "1\n\n".data = some ["1".data] ∧
    readFileSpecAlg jsonLoadsStub "1\n\n".data = none := by
  exact ⟨by decide, by decide⟩

/-- C4 (amended): the Loader reads the file, strips all trailing newlines
(not just one), splits on newline, and parses each line independently in
order; the claim's example file with one trailing newline still yields
exactly two records. -/
theorem C4_amended_loader {α : Type} (p : List Char → Option α) :
    (∀ content : List Char,
      read_file_as_json_list p (content ++ ['\n']) = read_file_as_json_list p content) ∧
    (∀ v1 v2 : α, p lineA = some v1 → p lineB = some v2 →
      read_file_as_json_list p (lineA ++ '\n' :: (lineB ++ ['\n'])) = some [v1, v2]) := by
  constructor
  · intro content
    unfold read_file_as_json_list
    rw [pyRstrip_append_nl]
  · intro v1 v2 h1 h2
    have hsplit : pySplit '\n' (pyRstrip '\n' (lineA ++ '\n' :: (lineB ++ ['\n']))) =
        [lineA, lineB] := by decide
    unfold read_file_as_json_list
    rw [hsplit, List.mapM_cons, List.mapM_cons, List.mapM_nil, h1, h2]
    rfl

/-- Witness for C4: the example content parses to exactly the two line
records under a concrete line parser. -/
theorem C4_witness :
    read_file_as_json_list jsonLoadsStub (lineA ++ '\n' :: (lineB ++ ['\n'])) =
      some [lineA, lineB] :=
  (C4_amended_loader jsonLoadsStub).2 lineA lineB (by decide) (by decide)

/-- C5 counterexample: a staged file with empty content does not produce an
empty-array insert call — parsing its single empty line fails, the walk
aborts with an exception, and no request is issued. -/
theorem C5_counterexample :
    upload_to_solr jsonLoadsStub (fun _ => true)
        (some [FsEntry.dir "20230101".data [FsEntry.file "f.log".data []]]) =
      ([], true) ∧
    upload_to_solr jsonLoadsStub (fun _ => true)
        (some [FsEntry.dir "20230101".data [FsEntry.file "f.log".data []]]) ≠
      ([[]], false) := by
  exact ⟨by decide, by decide⟩

/-- C5 (amended): for any line parser that rejects the empty string (as
`json.loads` does), an empty staged file raises a parse error: the run
aborts with zero insert calls issued for it, rather than sending an empty
array. -/
theorem C5_amended_empty_file {α : Type} (p : List Char → Option α)
    (solrOk : List α → Bool) (dname fname : List Char) (hp : p [] = none) :
    upload_to_solr p solrOk (some [FsEntry.dir dname [FsEntry.file fname []]]) =
      ([], true) := by
  have hr : read_file_as_json_list p ([] : List Char) = none := by
    unfold read_file_as_json_list
    have : pySplit '\n' (pyRstrip '\n' ([] : List Char)) = [[]] := by decide
    rw [this, List.mapM_cons, hp]
    rfl
  simp [upload_to_solr, uploadDirs, uploadFiles, hr]

/-- Witness for C5 under the concrete stand-in parser. -/
theorem C5_witness :
    upload_to_solr jsonLoadsStub (fun _ => true)
        (some [FsEntry.dir "20230102".data [FsEntry.file "g.log".data []]]) =
      ([], true) :=
  C5_amended_empty_file jsonLoadsStub (fun _ => true) "20230102".data "g.log".data
    (by decide)

end RangerRestore
